import Mathlib

/-!
Verification of the JVMCI lifecycle coordinator
(`src/hotspot/share/jvmci/jvmci.cpp`, OpenJDK 15 / labs fork).

The file embeds the mutable global state of the `JVMCI` class as an explicit
state record and translates each member function into a pure Lean function on
that state.  External collaborators (the OS dynamic loader, `JVMCIRuntime`
objects, `StringEventLog` buffers, compile tasks) are represented at their
interface boundary: runtime objects are identified by allocation index into a
list of roles (so pointer identity is index equality), event-log channels
record their construction parameters and appended entries, and the loader is a
pair of functions supplied as an environment.
-/

namespace JVMCIModel

/-- Model of a `StringEventLog` channel: its constructor arguments (name,
short handle, capacity in entries) plus the sequence of appended entries,
each tagged with the logging thread's identity (`none` for an unattached
thread). -/
structure StringEventLog where
  name : String
  shortName : String
  capacity : Int
  entries : List (Option Nat × String)
deriving DecidableEq, Repr

/-- The global VM flags read by `jvmci.cpp`, plus `Arguments::get_dll_dir()`
and the compile-time constant `max_EventLog_level`. -/
structure JVMCIConfig where
  LogEvents : Bool
  JVMCIEventLogLevel : Int
  LogEventsBufferEntries : Int
  max_EventLog_level : Int
  JVMCITraceLevel : Int
  UseJVMCINativeLibrary : Bool
  JVMCILibPath : Option String
  dll_dir : String
deriving DecidableEq, Repr

/-- The static fields of class `JVMCI`.  `JVMCIRuntime*` values are modelled
as indices into `runtimes`, whose entry at an index is the `role` argument the
runtime was constructed with; two references alias exactly when their indices
are equal. -/
structure JVMCIState where
  compiler_runtime : Option Nat
  java_runtime : Option Nat
  runtimes : List Int
  is_initialized : Bool
  shared_library_handle : Option Nat
  shared_library_path : Option String
  in_shutdown : Bool
  events : Option StringEventLog
  verbose_events : Option StringEventLog
deriving DecidableEq, Repr

/-- The C++ static initializers: every pointer `NULL`, every flag `false`. -/
def initialState : JVMCIState :=
  { compiler_runtime := none
    java_runtime := none
    runtimes := []
    is_initialized := false
    shared_library_handle := none
    shared_library_path := none
    in_shutdown := false
    events := none
    verbose_events := none }

/-- The loop `for (int i = 1; i < JVMCIEventLogLevel && i < max_EventLog_level; i++)
count = count * 10;` from `JVMCI::initialize_globals`, with loop variable `i`
and accumulator `count` explicit. -/
def expandBufferLoop (count i L maxL : Int) : Int :=
  if h : i < L ∧ i < maxL then expandBufferLoop (count * 10) (i + 1) L maxL
  else count
termination_by (min L maxL - i).toNat
decreasing_by
  simp_wf
  omega

/-- First half of `JVMCI::initialize_globals` (the `if (LogEvents)` block):
construct the coarse channel when the log level is positive, and additionally
the verbose channel — with the 10x-per-level expanded capacity — when the log
level exceeds 1. -/
def install_event_logs (cfg : JVMCIConfig) (s : JVMCIState) : JVMCIState :=
  if cfg.LogEvents = true then
    if cfg.JVMCIEventLogLevel > 0 then
      let coarse := StringEventLog.mk "JVMCI Events" "jvmci" cfg.LogEventsBufferEntries []
      let s2 := { s with events := some coarse }
      if cfg.JVMCIEventLogLevel > 1 then
        let count := expandBufferLoop cfg.LogEventsBufferEntries 1
          cfg.JVMCIEventLogLevel cfg.max_EventLog_level
        let verbose := StringEventLog.mk "Verbose JVMCI Events" "verbose-jvmci" count []
        { s2 with verbose_events := some verbose }
      else s2
    else s
  else s

/-- `JVMCI::initialize_globals`: construct the event-log channels according to
the logging flags, then construct the runtime registry according to
`UseJVMCINativeLibrary` (dual mode: a compiler runtime with role `0` and a
java runtime with role `-1`; single mode: one runtime with role `0` shared by
both references).  Allocation appends to `runtimes`, so each `new` yields a
fresh index. -/
def initialize_globals (cfg : JVMCIConfig) (s : JVMCIState) : JVMCIState :=
  let s1 := install_event_logs cfg s
  if cfg.UseJVMCINativeLibrary = true then
    { s1 with
        runtimes := s1.runtimes ++ [0, -1]
        compiler_runtime := some s1.runtimes.length
        java_runtime := some (s1.runtimes.length + 1) }
  else
    { s1 with
        runtimes := s1.runtimes ++ [0]
        compiler_runtime := some s1.runtimes.length
        java_runtime := some s1.runtimes.length }

/-- Interface to the OS loader: `dll_locate_lib` resolves a directory to the
full path of the JVMCI shared library (or fails), `dll_load` loads a resolved
path, yielding a handle or an error-buffer text. -/
structure LoaderEnv where
  dll_locate_lib : String → Option String
  dll_load : String → Except String Nat

/-- Normal-return payload of `JVMCI::get_shared_library`: the returned handle,
the out-parameter `path`, the post state, and the level-1 events emitted. -/
structure GetSharedLibraryOk where
  handle : Option Nat
  path : Option String
  state : JVMCIState
  emitted : List (Int × String)
deriving DecidableEq, Repr

/-- `JVMCI::get_shared_library(char*& path, bool load)`.  Fast path: if a
handle is already published or `load` is false, return the current handle and
path with no state change.  Slow path: resolve the library path (from
`JVMCILibPath` if set, else the default dll directory), load it, publish
handle and path, and emit a level-1 event.  `fatal(...)` is modelled by
`Except.error` carrying the formatted diagnostic. -/
def get_shared_library (env : LoaderEnv) (cfg : JVMCIConfig) (s : JVMCIState)
    (load : Bool) : Except String GetSharedLibraryOk :=
  let sl_handle := s.shared_library_handle
  if sl_handle ≠ none ∨ load = false then
    .ok ⟨sl_handle, s.shared_library_path, s, []⟩
  else
    let resolved : Except String String :=
      match cfg.JVMCILibPath with
      | some dir =>
        match env.dll_locate_lib dir with
        | some p => .ok p
        | none => .error
            ("Unable to create path to JVMCI shared library based on value of JVMCILibPath ("
              ++ dir ++ ")")
      | none =>
        match env.dll_locate_lib cfg.dll_dir with
        | some p => .ok p
        | none => .error "Unable to create path to JVMCI shared library"
    match resolved with
    | .error m => .error m
    | .ok p =>
      match env.dll_load p with
      | .error ebuf =>
        .error ("Unable to load JVMCI shared library from " ++ p ++ ": " ++ ebuf)
      | .ok h =>
        .ok ⟨some h, some p,
          { s with shared_library_handle := some h, shared_library_path := some p },
          [(1, "loaded JVMCI shared library from " ++ p)]⟩

/-- Observable effects of `JVMCI::shutdown`: the level-1 events emitted under
the lock in phase 1, the runtime references whose `shutdown()` was invoked in
phase 2 (in call order), and the post state. -/
structure ShutdownResult where
  emitted : List (Int × String)
  shut : List (Option Nat)
  state : JVMCIState
deriving DecidableEq, Repr

/-- `JVMCI::shutdown`: phase 1 under `JVMCI_lock` sets `_in_shutdown` and
emits a level-1 event; phase 2, outside the lock, calls
`java_runtime->shutdown()` only when it differs from the compiler runtime,
then `compiler_runtime->shutdown()` when that is non-null. -/
def shutdown (s : JVMCIState) : ShutdownResult :=
  let s1 := { s with in_shutdown := true }
  let java_runtime := s1.java_runtime
  let shut1 := if java_runtime ≠ s1.compiler_runtime then [java_runtime] else []
  let shut2 := if s1.compiler_runtime ≠ none then [s1.compiler_runtime] else []
  { emitted := [(1, "shutting down JVMCI")]
    shut := shut1 ++ shut2
    state := s1 }

/-- `JVMCI::metadata_do(void f(Metadata*))`, abstracted to the list of runtime
indices whose `_metadata_handles->metadata_do(f)` is invoked, in call order:
the java runtime when non-null, then the compiler runtime when non-null and
distinct from the java runtime. -/
def metadata_do (s : JVMCIState) : List Nat :=
  (match s.java_runtime with
   | some j => [j]
   | none => []) ++
  (match s.compiler_runtime with
   | some c => if some c ≠ s.java_runtime then [c] else []
   | none => [])

/-- `JVMCI::do_unloading(bool unloading_occurred)`, abstracted to the list of
runtime indices whose `_metadata_handles->do_unloading()` is invoked: none
when `unloading_occurred` is false, otherwise the same deduplicated fan-out as
`metadata_do`. -/
def do_unloading (s : JVMCIState) (unloading_occurred : Bool) : List Nat :=
  if unloading_occurred then
    (match s.java_runtime with
     | some j => [j]
     | none => []) ++
    (match s.compiler_runtime with
     | some c => if some c ≠ s.java_runtime then [c] else []
     | none => [])
  else []

/-- A `CompileTask`, at the interface boundary used by `compilation_tick`:
its `blocking_jvmci_compile_state()` is either a compile-state identifier or
null. -/
structure CompileTask where
  blocking_jvmci_compile_state : Option Nat
deriving DecidableEq, Repr

/-- A `JavaThread`, at the interface boundary used by `compilation_tick`:
whether it `is_Compiler_thread()`, and the compile task it is bound to (the
`task()` of its `CompilerThread` view, consulted only on compiler threads). -/
structure JavaThread where
  is_Compiler_thread : Bool
  task : Option CompileTask
deriving DecidableEq, Repr

/-- `JVMCI::compilation_tick(JavaThread* thread)`.  The tick counters owned by
the `JVMCICompileState` objects are modelled as a map from compile-state
identifier to counter value; `inc_compilation_ticks()` bumps the bound entry.
Returns the thread argument together with the updated counters. -/
def compilation_tick (thread : JavaThread) (ticks : Nat → Nat) :
    JavaThread × (Nat → Nat) :=
  if thread.is_Compiler_thread = true then
    match thread.task with
    | some task =>
      match task.blocking_jvmci_compile_state with
      | some st => (thread, fun i => if i = st then ticks i + 1 else ticks i)
      | none => (thread, ticks)
    | none => (thread, ticks)
  else (thread, ticks)

/-- Outcome of `JVMCI::vlog`: either the (possibly unchanged) state, or the
`guarantee` failure raised when the selected channel was never constructed. -/
inductive VlogResult where
  | ok (s : JVMCIState)
  | guaranteeFailed (msg : String)
deriving DecidableEq, Repr

/-- `JVMCI::vlog(int level, ...)`: when `LogEvents` is set and
`JVMCIEventLogLevel >= level`, select the coarse channel for `level == 1` and
the verbose channel otherwise, `guarantee` it exists, and append the formatted
entry tagged with the calling thread. -/
def vlog (cfg : JVMCIConfig) (level : Int) (thread : Option Nat) (msg : String)
    (s : JVMCIState) : VlogResult :=
  if cfg.LogEvents = true ∧ cfg.JVMCIEventLogLevel ≥ level then
    match (if level = 1 then s.events else s.verbose_events) with
    | none => .guaranteeFailed "JVMCI event log not yet initialized"
    | some ev =>
      let ev2 := { ev with entries := ev.entries ++ [(thread, msg)] }
      if level = 1 then .ok { s with events := some ev2 }
      else .ok { s with verbose_events := some ev2 }
  else .ok s

/-- `JVMCI::vtrace(int level, ...)`: when `JVMCITraceLevel >= level`, print
one line `JVMCITrace-<level>[<thread name or ?>]:<level spaces><message>` to
the console; the result is the list of lines printed. -/
def vtrace (cfg : JVMCIConfig) (level : Int) (threadName : Option String)
    (msg : String) : List String :=
  if cfg.JVMCITraceLevel ≥ level then
    let pad := String.mk (List.replicate level.toNat ' ')
    match threadName with
    | some n => ["JVMCITrace-" ++ toString level ++ "[" ++ n ++ "]:" ++ pad ++ msg]
    | none => ["JVMCITrace-" ++ toString level ++ "[?]:" ++ pad ++ msg]
  else []

/-- `JVMCI::event(int level, ...)` (the `LOG_TRACE` macro body): one call
performs the `vlog` attempt and, independently, the `vtrace` attempt for the
same level and message. -/
def event (cfg : JVMCIConfig) (level : Int) (thread : Option Nat)
    (threadName : Option String) (msg : String) (s : JVMCIState) :
    VlogResult × List String :=
  (vlog cfg level thread msg s, vtrace cfg level threadName msg)

/-- Helper for `strContains`: `true` when `pat` occurs as a contiguous
sublist of the second argument. -/
def infixOfCharList (pat : List Char) : List Char → Bool
  | [] => pat.isEmpty
  | c :: rest => pat.isPrefixOf (c :: rest) || infixOfCharList pat rest

/-- `true` when `pat` occurs as a contiguous substring of `s`; used to state
that a fatal diagnostic mentions a path or an error text. -/
def strContains (s pat : String) : Bool :=
  infixOfCharList pat.toList s.toList

/-- Example configuration: logging off, single-runtime mode. -/
def cfgSingle : JVMCIConfig :=
  { LogEvents := false
    JVMCIEventLogLevel := 0
    LogEventsBufferEntries := 20
    max_EventLog_level := 4
    JVMCITraceLevel := 0
    UseJVMCINativeLibrary := false
    JVMCILibPath := none
    dll_dir := "/jdk/lib" }

/-- Example configuration: logging off, dual-runtime (native library) mode. -/
def cfgDual : JVMCIConfig :=
  { cfgSingle with UseJVMCINativeLibrary := true }

/-- Example configuration: logging on at level 3, tracing at level 2. -/
def cfgLog : JVMCIConfig :=
  { cfgSingle with LogEvents := true, JVMCIEventLogLevel := 3, JVMCITraceLevel := 2 }

/-- Example loader environment in which resolution and loading succeed. -/
def envOk : LoaderEnv :=
  { dll_locate_lib := fun d => some (d ++ "/libjvmcicompiler.so")
    dll_load := fun _ => .ok 7 }

/-- Example loader environment in which path resolution fails. -/
def envLocateFail : LoaderEnv :=
  { dll_locate_lib := fun _ => none
    dll_load := fun _ => .ok 7 }

/-- Example loader environment in which loading fails with error text `EACCES`. -/
def envLoadFail : LoaderEnv :=
  { dll_locate_lib := fun d => some (d ++ "/libjvmcicompiler.so")
    dll_load := fun _ => .error "EACCES" }

/-- Example state in which both runtime references alias instance `0`. -/
def sAliased : JVMCIState :=
  { initialState with runtimes := [0], compiler_runtime := some 0, java_runtime := some 0 }

/-- Example state with two distinct runtime instances. -/
def sDual : JVMCIState :=
  { initialState with runtimes := [0, -1], compiler_runtime := some 0, java_runtime := some 1 }

/-- Example state in which shared-library handle `5` has been published. -/
def sPublished : JVMCIState :=
  { initialState with
      shared_library_handle := some 5
      shared_library_path := some "/jdk/lib/libjvmcicompiler.so" }

/-- Example compiler thread bound to a task whose blocking compile state is `2`. -/
def thrCompiler : JavaThread :=
  { is_Compiler_thread := true, task := some { blocking_jvmci_compile_state := some 2 } }

/-- Example non-compiler thread. -/
def thrJava : JavaThread :=
  { is_Compiler_thread := false, task := none }

/-- Closed form of the capacity-expansion loop: starting at loop index `i`,
the accumulator is multiplied by `10` once for every remaining iteration. -/
theorem expandBufferLoop_spec (L maxL : Int) :
    ∀ (n : Nat) (count i : Int), (min L maxL - i).toNat = n →
      expandBufferLoop count i L maxL = count * 10 ^ n := by
  intro n
  induction n with
  | zero =>
    intro count i h
    rw [expandBufferLoop, dif_neg (by omega), pow_zero, mul_one]
  | succ n ih =>
    intro count i h
    rw [expandBufferLoop, dif_pos (by omega : i < L ∧ i < maxL),
      ih (count * 10) (i + 1) (by omega), pow_succ]
    ring

/-- The event-log construction phase does not touch the runtime registry. -/
theorem install_event_logs_runtimes (cfg : JVMCIConfig) (s : JVMCIState) :
    (install_event_logs cfg s).runtimes = s.runtimes ∧
    (install_event_logs cfg s).compiler_runtime = s.compiler_runtime ∧
    (install_event_logs cfg s).java_runtime = s.java_runtime := by
  unfold install_event_logs
  split_ifs <;> exact ⟨rfl, rfl, rfl⟩

/-- When logging is enabled at a positive level, the construction phase
installs the coarse channel with the configured base capacity. -/
theorem install_event_logs_events (cfg : JVMCIConfig) (s : JVMCIState)
    (h1 : cfg.LogEvents = true) (h0 : 0 < cfg.JVMCIEventLogLevel) :
    (install_event_logs cfg s).events =
      some (StringEventLog.mk "JVMCI Events" "jvmci" cfg.LogEventsBufferEntries []) := by
  unfold install_event_logs
  rw [if_pos h1, if_pos h0]
  split_ifs <;> rfl

/-- When logging is enabled at a level above 1, the construction phase
installs the verbose channel with the loop-expanded capacity. -/
theorem install_event_logs_verbose (cfg : JVMCIConfig) (s : JVMCIState)
    (h1 : cfg.LogEvents = true) (h2 : 1 < cfg.JVMCIEventLogLevel) :
    (install_event_logs cfg s).verbose_events =
      some (StringEventLog.mk "Verbose JVMCI Events" "verbose-jvmci"
        (expandBufferLoop cfg.LogEventsBufferEntries 1
          cfg.JVMCIEventLogLevel cfg.max_EventLog_level) []) := by
  unfold install_event_logs
  rw [if_pos h1, if_pos (by omega : cfg.JVMCIEventLogLevel > 0), if_pos h2]

/-- The runtime-construction phase of `initialize_globals` does not touch the
event-log channels. -/
theorem initialize_globals_channels (cfg : JVMCIConfig) (s : JVMCIState) :
    (initialize_globals cfg s).events = (install_event_logs cfg s).events ∧
    (initialize_globals cfg s).verbose_events = (install_event_logs cfg s).verbose_events := by
  unfold initialize_globals
  split_ifs <;> exact ⟨rfl, rfl⟩

/-- C1: `initialize_globals` builds the runtime registry by the native-library
mode switch: without dual-runtime mode, `compiler_runtime` and `java_runtime`
are the same reference to a runtime constructed with role `0`; with
dual-runtime mode they are references to two distinct runtimes, the compiler
one with role `0` and the java one with the sentinel role `-1`. -/
theorem initGlobals_runtime_registry (cfg : JVMCIConfig) (s : JVMCIState) :
    (cfg.UseJVMCINativeLibrary = false →
      (initialize_globals cfg s).compiler_runtime = (initialize_globals cfg s).java_runtime ∧
      ∃ i, (initialize_globals cfg s).compiler_runtime = some i ∧
        (initialize_globals cfg s).runtimes[i]? = some 0) ∧
    (cfg.UseJVMCINativeLibrary = true →
      ∃ i j, (initialize_globals cfg s).compiler_runtime = some i ∧
        (initialize_globals cfg s).java_runtime = some j ∧ i ≠ j ∧
        (initialize_globals cfg s).runtimes[i]? = some 0 ∧
        (initialize_globals cfg s).runtimes[j]? = some (-1)) := by
  constructor
  · intro h
    unfold initialize_globals
    rw [if_neg (by simp [h])]
    refine ⟨rfl, (install_event_logs cfg s).runtimes.length, rfl, ?_⟩
    rw [List.getElem?_append_right (le_refl _)]
    simp
  · intro h
    unfold initialize_globals
    rw [if_pos h]
    refine ⟨(install_event_logs cfg s).runtimes.length,
      (install_event_logs cfg s).runtimes.length + 1, rfl, rfl, by omega, ?_, ?_⟩
    · rw [List.getElem?_append_right (le_refl _)]
      simp
    · rw [List.getElem?_append_right (by omega)]
      simp

/-- Witness for C1 at two concrete configurations, one per mode. -/
theorem initGlobals_runtime_registry_witness :
    ((initialize_globals cfgSingle initialState).compiler_runtime =
        (initialize_globals cfgSingle initialState).java_runtime ∧
      ∃ i, (initialize_globals cfgSingle initialState).compiler_runtime = some i ∧
        (initialize_globals cfgSingle initialState).runtimes[i]? = some 0) ∧
    (∃ i j, (initialize_globals cfgDual initialState).compiler_runtime = some i ∧
      (initialize_globals cfgDual initialState).java_runtime = some j ∧ i ≠ j ∧
      (initialize_globals cfgDual initialState).runtimes[i]? = some 0 ∧
      (initialize_globals cfgDual initialState).runtimes[j]? = some (-1)) :=
  ⟨(initGlobals_runtime_registry cfgSingle initialState).1 rfl,
   (initGlobals_runtime_registry cfgDual initialState).2 rfl⟩

/-- C7: with logging enabled at a level above 1, `initialize_globals` builds
the verbose channel with capacity `B * 10 ^ (L - 1)`, the exponent capped at
`max_EventLog_level - 1`. -/
theorem initGlobals_verbose_capacity (cfg : JVMCIConfig) (s : JVMCIState)
    (hlog : cfg.LogEvents = true) (hL : 1 < cfg.JVMCIEventLogLevel)
    (hmax : 1 ≤ cfg.max_EventLog_level) :
    (initialize_globals cfg s).verbose_events =
      some (StringEventLog.mk "Verbose JVMCI Events" "verbose-jvmci"
        (cfg.LogEventsBufferEntries *
          10 ^ (min (cfg.JVMCIEventLogLevel - 1) (cfg.max_EventLog_level - 1)).toNat) []) := by
  rw [(initialize_globals_channels cfg s).2, install_event_logs_verbose cfg s hlog hL,
    expandBufferLoop_spec cfg.JVMCIEventLogLevel cfg.max_EventLog_level
      (min (cfg.JVMCIEventLogLevel - 1) (cfg.max_EventLog_level - 1)).toNat
      cfg.LogEventsBufferEntries 1 (by omega)]

/-- Witness for C7: base capacity 20 at configured level 3 (maximum 4) gives a
verbose channel of capacity 2000. -/
theorem initGlobals_verbose_capacity_witness :
    (initialize_globals cfgLog initialState).verbose_events =
      some (StringEventLog.mk "Verbose JVMCI Events" "verbose-jvmci"
        (cfgLog.LogEventsBufferEntries *
          10 ^ (min (cfgLog.JVMCIEventLogLevel - 1) (cfgLog.max_EventLog_level - 1)).toNat) []) :=
  initGlobals_verbose_capacity cfgLog initialState rfl (by decide) (by decide)

/-- A list is a prefix (in the boolean sense) of itself followed by anything. -/
theorem isPrefixOf_append_self (l t : List Char) : l.isPrefixOf (l ++ t) = true := by
  induction l with
  | nil => cases t <;> rfl
  | cons a as ih =>
    show (a == a && as.isPrefixOf (as ++ t)) = true
    rw [ih, beq_self_eq_true, Bool.and_self]

/-- `infixOfCharList` finds a pattern placed between any two lists. -/
theorem infixOfCharList_append (pre pat post : List Char) :
    infixOfCharList pat (pre ++ pat ++ post) = true := by
  induction pre with
  | nil =>
    cases pat with
    | nil =>
      cases post with
      | nil => rfl
      | cons d ds =>
        show ([].isPrefixOf (d :: ds) || infixOfCharList [] ds) = true
        rw [show ([] : List Char).isPrefixOf (d :: ds) = true from rfl, Bool.true_or]
    | cons a as =>
      show ((a :: as).isPrefixOf ((a :: as) ++ post) || infixOfCharList (a :: as) (as ++ post)) = true
      rw [isPrefixOf_append_self, Bool.true_or]
  | cons c cs ih =>
    show (pat.isPrefixOf ((c :: cs) ++ pat ++ post) || infixOfCharList pat (cs ++ pat ++ post)) = true
    rw [ih, Bool.or_true]

/-- A string built around `pat` contains `pat`. -/
theorem strContains_append (a pat b : String) :
    strContains (a ++ pat ++ b) pat = true := by
  unfold strContains
  rw [show (a ++ pat ++ b).toList = a.toList ++ pat.toList ++ b.toList by
    simp [String.toList, String.data_append]]
  exact infixOfCharList_append a.toList pat.toList b.toList

/-- A string ending in `pat` contains `pat`. -/
theorem strContains_append_right (a pat : String) :
    strContains (a ++ pat) pat = true := by
  unfold strContains
  rw [show (a ++ pat).toList = a.toList ++ pat.toList ++ [] by
    simp [String.toList, String.data_append]]
  exact infixOfCharList_append a.toList pat.toList []

/-- C2: the shared library is loaded at most once.  The fast path (handle
already published, or `load` false) returns the current handle and path with
no state change; every normal return publishes exactly the returned handle
and path; and once a handle is published, every later call — whatever its
arguments — returns that same handle and path without touching the state. -/
theorem getSharedLibrary_at_most_once (env : LoaderEnv) (cfg : JVMCIConfig)
    (s : JVMCIState) (load : Bool) :
    (s.shared_library_handle ≠ none ∨ load = false →
      get_shared_library env cfg s load =
        .ok ⟨s.shared_library_handle, s.shared_library_path, s, []⟩) ∧
    (∀ r : GetSharedLibraryOk, get_shared_library env cfg s load = .ok r →
      r.state.shared_library_handle = r.handle ∧
      r.state.shared_library_path = r.path) ∧
    (∀ h0 : Nat, s.shared_library_handle = some h0 →
      ∀ (env2 : LoaderEnv) (cfg2 : JVMCIConfig) (load2 : Bool),
        get_shared_library env2 cfg2 s load2 =
          .ok ⟨some h0, s.shared_library_path, s, []⟩) := by
  refine ⟨?_, ?_, ?_⟩
  · intro h
    unfold get_shared_library
    rw [if_pos h]
  · intro r hr
    simp only [get_shared_library] at hr
    split_ifs at hr with hfast
    · simp only [Except.ok.injEq] at hr
      subst hr
      exact ⟨rfl, rfl⟩
    · rcases hcfg : cfg.JVMCILibPath with _ | dir <;> simp only [hcfg] at hr
      · rcases hloc : env.dll_locate_lib cfg.dll_dir with _ | p <;>
          simp only [hloc] at hr
        · exact Except.noConfusion hr
        · rcases hld : env.dll_load p with ebuf | h <;> simp only [hld] at hr
          · exact Except.noConfusion hr
          · simp only [Except.ok.injEq] at hr
            subst hr
            exact ⟨rfl, rfl⟩
      · rcases hloc : env.dll_locate_lib dir with _ | p <;>
          simp only [hloc] at hr
        · exact Except.noConfusion hr
        · rcases hld : env.dll_load p with ebuf | h <;> simp only [hld] at hr
          · exact Except.noConfusion hr
          · simp only [Except.ok.injEq] at hr
            subst hr
            exact ⟨rfl, rfl⟩
  · intro h0 hh env2 cfg2 load2
    unfold get_shared_library
    rw [if_pos (Or.inl (by simp [hh])), hh]

/-- Witness for C2: on a state with published handle `5`, a later call
returns the published handle and path and leaves the state alone. -/
theorem getSharedLibrary_at_most_once_witness :
    get_shared_library envOk cfgSingle sPublished true =
      .ok ⟨some 5, sPublished.shared_library_path, sPublished, []⟩ :=
  (getSharedLibrary_at_most_once envOk cfgSingle sPublished true).2.2 5 rfl
    envOk cfgSingle true

/-- C8 (amended): in the loading path every failure is fatal, with no retry
and no normal return; the load-failure diagnostic names the attempted path and
the loader's error text, while the resolution-failure diagnostic names the
configured `JVMCILibPath` when one is set and is a fixed message otherwise. -/
theorem getSharedLibrary_failure_fatal (env : LoaderEnv) (cfg : JVMCIConfig)
    (s : JVMCIState) (hnone : s.shared_library_handle = none) :
    (∀ dir : String, cfg.JVMCILibPath = some dir → env.dll_locate_lib dir = none →
      get_shared_library env cfg s true =
        .error ("Unable to create path to JVMCI shared library based on value of JVMCILibPath ("
          ++ dir ++ ")") ∧
      strContains ("Unable to create path to JVMCI shared library based on value of JVMCILibPath ("
        ++ dir ++ ")") dir = true) ∧
    (cfg.JVMCILibPath = none → env.dll_locate_lib cfg.dll_dir = none →
      get_shared_library env cfg s true =
        .error "Unable to create path to JVMCI shared library") ∧
    (∀ dir p ebuf, cfg.JVMCILibPath = some dir → env.dll_locate_lib dir = some p →
      env.dll_load p = .error ebuf →
      get_shared_library env cfg s true =
        .error ("Unable to load JVMCI shared library from " ++ p ++ ": " ++ ebuf) ∧
      strContains ("Unable to load JVMCI shared library from " ++ p ++ ": " ++ ebuf) p = true ∧
      strContains ("Unable to load JVMCI shared library from " ++ p ++ ": " ++ ebuf) ebuf = true) ∧
    (∀ p ebuf, cfg.JVMCILibPath = none → env.dll_locate_lib cfg.dll_dir = some p →
      env.dll_load p = .error ebuf →
      get_shared_library env cfg s true =
        .error ("Unable to load JVMCI shared library from " ++ p ++ ": " ++ ebuf) ∧
      strContains ("Unable to load JVMCI shared library from " ++ p ++ ": " ++ ebuf) p = true ∧
      strContains ("Unable to load JVMCI shared library from " ++ p ++ ": " ++ ebuf) ebuf = true) := by
  have hfast : ¬(s.shared_library_handle ≠ none ∨ true = false) := by simp [hnone]
  have hcp : ∀ p ebuf : String,
      strContains ("Unable to load JVMCI shared library from " ++ p ++ ": " ++ ebuf) p = true := by
    intro p ebuf
    have hp : strContains ("Unable to load JVMCI shared library from " ++ p ++ (": " ++ ebuf)) p =
        true := strContains_append "Unable to load JVMCI shared library from " p (": " ++ ebuf)
    rw [← String.append_assoc] at hp
    exact hp
  have hce : ∀ p ebuf : String,
      strContains ("Unable to load JVMCI shared library from " ++ p ++ ": " ++ ebuf) ebuf = true :=
    fun p ebuf =>
      strContains_append_right ("Unable to load JVMCI shared library from " ++ p ++ ": ") ebuf
  refine ⟨?_, ?_, ?_, ?_⟩
  · intro dir hdir hloc
    refine ⟨?_, strContains_append
      "Unable to create path to JVMCI shared library based on value of JVMCILibPath (" dir ")"⟩
    unfold get_shared_library
    rw [if_neg hfast]
    simp [hdir, hloc]
  · intro hdir hloc
    unfold get_shared_library
    rw [if_neg hfast]
    simp [hdir, hloc]
  · intro dir p ebuf hdir hloc hld
    refine ⟨?_, hcp p ebuf, hce p ebuf⟩
    unfold get_shared_library
    rw [if_neg hfast]
    simp [hdir, hloc, hld]
  · intro p ebuf hdir hloc hld
    refine ⟨?_, hcp p ebuf, hce p ebuf⟩
    unfold get_shared_library
    rw [if_neg hfast]
    simp [hdir, hloc, hld]

/-- Witness for C8's amended theorem: a failing loader yields the fatal
diagnostic naming the attempted path and the error text. -/
theorem getSharedLibrary_failure_fatal_witness :
    get_shared_library envLoadFail cfgSingle initialState true =
      .error ("Unable to load JVMCI shared library from "
        ++ "/jdk/lib/libjvmcicompiler.so" ++ ": " ++ "EACCES") ∧
    strContains ("Unable to load JVMCI shared library from "
      ++ "/jdk/lib/libjvmcicompiler.so" ++ ": " ++ "EACCES")
      "/jdk/lib/libjvmcicompiler.so" = true ∧
    strContains ("Unable to load JVMCI shared library from "
      ++ "/jdk/lib/libjvmcicompiler.so" ++ ": " ++ "EACCES") "EACCES" = true :=
  (getSharedLibrary_failure_fatal envLoadFail cfgSingle initialState rfl).2.2.2
    "/jdk/lib/libjvmcicompiler.so" "EACCES" rfl rfl rfl

/-- Counterexample for C8 as stated: when the library path cannot be resolved
from the default directory, the fatal diagnostic is a fixed message that
mentions neither an attempted path (it does not even contain the searched
directory) nor any loader error text. -/
theorem getSharedLibrary_diag_counterexample :
    get_shared_library envLocateFail cfgSingle initialState true =
      .error "Unable to create path to JVMCI shared library" ∧
    strContains "Unable to create path to JVMCI shared library" cfgSingle.dll_dir = false := by
  exact ⟨rfl, by decide⟩

/-- C3: `shutdown` first (under the lock) sets `in_shutdown` and emits the
level-1 event, then shuts runtimes down outside the lock: the java-role
handle only when it differs from the compiler-role handle, afterwards the
compiler-role handle when present; no runtime reference is shut down twice
within one call. -/
theorem shutdown_two_phase (s : JVMCIState) :
    (shutdown s).state = { s with in_shutdown := true } ∧
    (shutdown s).emitted = [(1, "shutting down JVMCI")] ∧
    List.Nodup (shutdown s).shut ∧
    (s.java_runtime = s.compiler_runtime →
      (shutdown s).shut =
        if s.compiler_runtime = none then [] else [s.compiler_runtime]) ∧
    (s.java_runtime ≠ s.compiler_runtime →
      (shutdown s).shut =
        s.java_runtime :: (if s.compiler_runtime = none then [] else [s.compiler_runtime])) := by
  refine ⟨rfl, rfl, ?_, ?_, ?_⟩
  · show List.Nodup
      ((if s.java_runtime ≠ s.compiler_runtime then [s.java_runtime] else []) ++
        (if s.compiler_runtime ≠ none then [s.compiler_runtime] else []))
    by_cases hjc : s.java_runtime = s.compiler_runtime
    · rw [if_neg (by simp [hjc])]
      split_ifs <;> simp
    · rw [if_pos hjc]
      split_ifs <;> simp [hjc]
  · intro hjc
    show (if s.java_runtime ≠ s.compiler_runtime then [s.java_runtime] else []) ++
        (if s.compiler_runtime ≠ none then [s.compiler_runtime] else []) = _
    rw [if_neg (by simp [hjc])]
    by_cases hc : s.compiler_runtime = none
    · rw [if_neg (by simp [hc]), if_pos hc]
      rfl
    · rw [if_pos hc, if_neg hc]
      rfl
  · intro hjc
    show (if s.java_runtime ≠ s.compiler_runtime then [s.java_runtime] else []) ++
        (if s.compiler_runtime ≠ none then [s.compiler_runtime] else []) = _
    rw [if_pos hjc]
    by_cases hc : s.compiler_runtime = none
    · rw [if_neg (by simp [hc]), if_pos hc]
      rfl
    · rw [if_pos hc, if_neg hc]
      rfl

/-- Witness for C3 at an aliased state and at a dual state. -/
theorem shutdown_two_phase_witness :
    (shutdown sAliased).state = { sAliased with in_shutdown := true } ∧
    (shutdown sAliased).shut =
      (if sAliased.compiler_runtime = none then [] else [sAliased.compiler_runtime]) ∧
    (shutdown sDual).shut =
      sDual.java_runtime :: (if sDual.compiler_runtime = none then [] else [sDual.compiler_runtime]) :=
  ⟨(shutdown_two_phase sAliased).1,
   (shutdown_two_phase sAliased).2.2.2.1 rfl,
   (shutdown_two_phase sDual).2.2.2.2 (by decide)⟩

/-- C5: on a state whose two role references alias one runtime, a second
`shutdown` call starts with `in_shutdown` already `true` and invokes the
aliased runtime's own shutdown only once, through the compiler-role branch. -/
theorem shutdown_twice_safe (s : JVMCIState) (r : Nat)
    (hj : s.java_runtime = some r) (hc : s.compiler_runtime = some r) :
    ((shutdown s).state.in_shutdown = true) ∧
    ((shutdown (shutdown s).state).shut = [some r]) ∧
    ((shutdown (shutdown s).state).shut.count (some r) = 1) := by
  have hshut : (shutdown (shutdown s).state).shut = [some r] := by
    show (if (shutdown s).state.java_runtime ≠ (shutdown s).state.compiler_runtime
        then [(shutdown s).state.java_runtime] else []) ++
      (if (shutdown s).state.compiler_runtime ≠ none
        then [(shutdown s).state.compiler_runtime] else []) = [some r]
    have h1 : (shutdown s).state.java_runtime = some r := hj
    have h2 : (shutdown s).state.compiler_runtime = some r := hc
    rw [h1, h2, if_neg (by simp), if_pos (by simp)]
    rfl
  exact ⟨rfl, hshut, by rw [hshut, List.count_cons_self, List.count_nil]⟩

/-- Witness for C5 at the aliased example state. -/
theorem shutdown_twice_safe_witness :
    ((shutdown sAliased).state.in_shutdown = true) ∧
    ((shutdown (shutdown sAliased).state).shut = [some 0]) ∧
    ((shutdown (shutdown sAliased).state).shut.count (some 0) = 1) :=
  shutdown_twice_safe sAliased 0 rfl rfl

/-- C4: `metadata_do` and `do_unloading true` visit the java-role runtime's
handle table and, only when distinct, the compiler-role runtime's table: one
table for an aliased registry, two for a dual registry, never the same table
twice; `do_unloading false` touches nothing. -/
theorem metadata_fanout_dedup (s : JVMCIState) :
    (∀ r : Nat, s.java_runtime = some r → s.compiler_runtime = some r →
      metadata_do s = [r] ∧ do_unloading s true = [r]) ∧
    (∀ j c : Nat, s.java_runtime = some j → s.compiler_runtime = some c → j ≠ c →
      metadata_do s = [j, c] ∧ do_unloading s true = [j, c]) ∧
    do_unloading s false = [] ∧
    (∀ r : Nat, (metadata_do s).count r ≤ 1) := by
  refine ⟨?_, ?_, rfl, ?_⟩
  · intro r hj hc
    constructor <;> simp [metadata_do, do_unloading, hj, hc]
  · intro j c hj hc hne
    constructor <;> simp [metadata_do, do_unloading, hj, hc, Ne.symm hne]
  · have hnd : (metadata_do s).Nodup := by
      rcases hj : s.java_runtime with _ | j <;>
        rcases hc : s.compiler_runtime with _ | c <;>
        simp [metadata_do, hj, hc]
      by_cases hcj : c = j
      · simp [hcj]
      · simp [hcj, Ne.symm hcj]
    exact fun r => List.nodup_iff_count_le_one.mp hnd r

/-- Witness for C4 at the aliased and dual example states. -/
theorem metadata_fanout_dedup_witness :
    (metadata_do sAliased = [0] ∧ do_unloading sAliased true = [0]) ∧
    (metadata_do sDual = [1, 0] ∧ do_unloading sDual true = [1, 0]) :=
  ⟨(metadata_fanout_dedup sAliased).1 0 rfl rfl,
   (metadata_fanout_dedup sDual).2.1 1 0 rfl rfl (by decide)⟩

/-- C10: before `initialize_globals` both runtime references are null;
`metadata_do` and `do_unloading` then return normally having visited no
handle table, because each reference is null-checked before its table is
accessed. -/
theorem metadata_null_safe (s : JVMCIState)
    (hj : s.java_runtime = none) (hc : s.compiler_runtime = none) :
    metadata_do s = [] ∧ ∀ b : Bool, do_unloading s b = [] := by
  constructor
  · simp [metadata_do, hj, hc]
  · intro b
    cases b <;> simp [do_unloading, hj, hc]

/-- Witness for C10 at the pre-initialization state. -/
theorem metadata_null_safe_witness :
    metadata_do initialState = [] ∧ ∀ b : Bool, do_unloading initialState b = [] :=
  metadata_null_safe initialState rfl rfl

/-- C9: `compilation_tick` returns its thread argument unchanged, and bumps
exactly the tick counter of the blocking compile state bound to the calling
compiler thread's task — every other counter, and every counter when the
thread is not a compiler thread with such a task, is untouched. -/
theorem compilation_tick_spec (t : JavaThread) (ticks : Nat → Nat) :
    (compilation_tick t ticks).1 = t ∧
    ∀ i : Nat, (compilation_tick t ticks).2 i =
      (if t.is_Compiler_thread = true ∧
          t.task.bind CompileTask.blocking_jvmci_compile_state = some i
        then ticks i + 1 else ticks i) := by
  unfold compilation_tick
  by_cases hct : t.is_Compiler_thread = true
  · rcases htk : t.task with _ | task
    · simp [hct, htk]
    · rcases hst : task.blocking_jvmci_compile_state with _ | st
      · simp [hct, htk, hst]
      · simp only [hct, htk, hst, if_pos rfl, Option.some_bind]
        refine ⟨rfl, ?_⟩
        intro i
        by_cases hi : i = st
        · simp [hi]
        · simp [hi, Ne.symm hi]
  · simp [hct]

/-- Witness for C9 on a concrete compiler thread bound to compile state 2. -/
theorem compilation_tick_spec_witness :
    (compilation_tick thrCompiler (fun _ => 0)).1 = thrCompiler ∧
    ∀ i : Nat, (compilation_tick thrCompiler (fun _ => 0)).2 i =
      (if thrCompiler.is_Compiler_thread = true ∧
          thrCompiler.task.bind CompileTask.blocking_jvmci_compile_state = some i
        then (fun _ => 0 : Nat → Nat) i + 1 else (fun _ => 0 : Nat → Nat) i) :=
  compilation_tick_spec thrCompiler (fun _ => 0)

/-- C6: after `initialize_globals`, a call at level `L ≥ 1` appends an entry
to the structured log if and only if `LogEvents` is set and the configured log
level is at least `L` — into the coarse channel for `L = 1` and the verbose
channel otherwise — and produces a trace line if and only if the configured
trace level is at least `L`, the trace side depending only on the trace
level. -/
theorem event_log_trace_gating (cfg : JVMCIConfig) (s0 : JVMCIState) (level : Int)
    (t : Option Nat) (nm : Option String) (msg : String) (hlev : 1 ≤ level) :
    (¬(cfg.LogEvents = true ∧ cfg.JVMCIEventLogLevel ≥ level) →
      (event cfg level t nm msg (initialize_globals cfg s0)).1 =
        .ok (initialize_globals cfg s0)) ∧
    (cfg.LogEvents = true → cfg.JVMCIEventLogLevel ≥ level → level = 1 →
      ∃ ev, (initialize_globals cfg s0).events = some ev ∧
        (event cfg level t nm msg (initialize_globals cfg s0)).1 =
          .ok { initialize_globals cfg s0 with
            events := some { ev with entries := ev.entries ++ [(t, msg)] } }) ∧
    (cfg.LogEvents = true → cfg.JVMCIEventLogLevel ≥ level → level ≠ 1 →
      ∃ ev, (initialize_globals cfg s0).verbose_events = some ev ∧
        (event cfg level t nm msg (initialize_globals cfg s0)).1 =
          .ok { initialize_globals cfg s0 with
            verbose_events := some { ev with entries := ev.entries ++ [(t, msg)] } }) ∧
    ((event cfg level t nm msg (initialize_globals cfg s0)).2.length =
      if cfg.JVMCITraceLevel ≥ level then 1 else 0) ∧
    (∀ cfg2 : JVMCIConfig, cfg2.JVMCITraceLevel = cfg.JVMCITraceLevel →
      vtrace cfg2 level nm msg = vtrace cfg level nm msg) := by
  refine ⟨?_, ?_, ?_, ?_, ?_⟩
  · intro h
    show vlog cfg level t msg (initialize_globals cfg s0) = _
    unfold vlog
    rw [if_neg h]
  · intro h1 h2 h3
    subst h3
    have hev : (initialize_globals cfg s0).events =
        some (StringEventLog.mk "JVMCI Events" "jvmci" cfg.LogEventsBufferEntries []) :=
      (initialize_globals_channels cfg s0).1.trans
        (install_event_logs_events cfg s0 h1 (by omega))
    refine ⟨_, hev, ?_⟩
    show vlog cfg 1 t msg (initialize_globals cfg s0) = _
    unfold vlog
    rw [if_pos ⟨h1, h2⟩, if_pos rfl, hev]
    simp
  · intro h1 h2 h3
    have hev : (initialize_globals cfg s0).verbose_events =
        some (StringEventLog.mk "Verbose JVMCI Events" "verbose-jvmci"
          (expandBufferLoop cfg.LogEventsBufferEntries 1
            cfg.JVMCIEventLogLevel cfg.max_EventLog_level) []) :=
      (initialize_globals_channels cfg s0).2.trans
        (install_event_logs_verbose cfg s0 h1 (by omega))
    refine ⟨_, hev, ?_⟩
    show vlog cfg level t msg (initialize_globals cfg s0) = _
    unfold vlog
    rw [if_pos ⟨h1, h2⟩, if_neg h3, hev]
    simp [h3]
  · show (vtrace cfg level nm msg).length = _
    unfold vtrace
    split_ifs with htr
    · cases nm <;> rfl
    · rfl
  · intro cfg2 htr
    unfold vtrace
    rw [htr]

/-- Witness for C6: at configuration `cfgLog` (log level 3, trace level 2), a
level-2 call appends to the verbose channel and emits one trace line. -/
theorem event_log_trace_gating_witness :
    (∃ ev, (initialize_globals cfgLog initialState).verbose_events = some ev ∧
      (event cfgLog 2 (some 9) (some "main") "hello"
          (initialize_globals cfgLog initialState)).1 =
        .ok { initialize_globals cfgLog initialState with
          verbose_events := some { ev with entries := ev.entries ++ [(some 9, "hello")] } }) ∧
    ((event cfgLog 2 (some 9) (some "main") "hello"
        (initialize_globals cfgLog initialState)).2.length =
      if cfgLog.JVMCITraceLevel ≥ 2 then 1 else 0) :=
  ⟨(event_log_trace_gating cfgLog initialState 2 (some 9) (some "main") "hello"
      (by decide)).2.2.1 rfl (by decide) (by decide),
   (event_log_trace_gating cfgLog initialState 2 (some 9) (some "main") "hello"
      (by decide)).2.2.2.1⟩

end JVMCIModel
